import Mathlib

/-!
# Verification of the `BaseEar` listening/interruption orchestrator

Shallow embedding of `src/openvoicechat/stt/base.py` (class `BaseEar`):
the batch listening loop `_listen`, the streaming loop `_listen_stream`,
the stream-simulation helper `_sim_transcribe_stream`, and the
interruption loop `interrupt_listen`.

External collaborators (microphone capture, the speech-to-text model, the
sentence segmenter) are modelled as oracle functions supplied in an
environment record; audio buffers are modelled as lists of rational
samples (the Python code carries `float32` numpy arrays whose samples are
never inspected by the orchestrator, except for `len(audio)` and the
int16 PCM conversion, both of which are exact on rationals).
-/

set_option autoImplicit false

namespace OpenVoiceChat

/-- An audio buffer: a mono sequence of floating-point samples
(`np.ndarray` of `float32` in the source), modelled with exact rationals. -/
abbrev Audio : Type := List ℚ

/-! ## Batch listening (`BaseEar._listen`, base.py lines 99-140) -/

/-- Environment of external collaborators used by `_listen`.

* `record_user k started` is the audio returned by the `k`-th call of the
  capture primitive `record_user(self.silence_seconds, self.vad,
  self.listener, started=..., logger=...)`; the call index `k` models the
  statefulness of the microphone, and `started` is the flag the
  orchestrator passes (`started=not first` in the source).
* `transcribe a` is the text `self.transcribe(a)` returns for buffer `a`.
* `segment t` is `len(seg.segment(t))`, the number of sentence spans the
  `pysbd` segmenter reports for text `t`. -/
structure ListenEnv where
  record_user : Nat → Bool → Audio
  transcribe : Audio → String
  segment : String → Nat

/-- One capture/transcribe/segment cycle of `_listen`, as recorded in the
cycle trace: the `started` flag passed to `record_user`, the full
accumulated audio buffer at transcription time, and the transcription of
that buffer. -/
structure CycleRec where
  started : Bool
  buffer : Audio
  text : String
deriving DecidableEq

/-- The `while not sentence_finished and n > 0` loop of `_listen`
(base.py lines 112-139).  Arguments mirror the Python local state:
call index `k` (implicit in Python via the stateful microphone),
accumulated `audio`, the `first` flag, the retry budget `n`, and the
last computed `text` (returned when `n` reaches 0).  The returned trace
lists the cycles performed. -/
def listenLoop (env : ListenEnv) :
    Nat → Audio → Bool → Nat → String → List CycleRec → String × List CycleRec
  | _, _, _, 0, lastText, trace => (lastText, trace)
  | k, audio, first, Nat.succ m, _, trace =>
    let started := !first
    let newAudio := env.record_user k started
    let audio2 := audio ++ newAudio
    let text := env.transcribe audio2
    let trace2 := trace ++ [⟨started, audio2, text⟩]
    if env.segment (text ++ " .") > 1 then (text, trace2)
    else listenLoop env (k + 1) audio2 false m text trace2

/-- `BaseEar._listen` (base.py lines 99-140): empty initial buffer,
`first = True`, retry budget `n = 2`.  Returns the final `text` together
with the trace of cycles performed. -/
def _listen (env : ListenEnv) : String × List CycleRec :=
  listenLoop env 0 [] true 2 "" []

/-- C1: if segmenting `text + " ."` never yields more than one span,
`_listen` performs exactly 2 cycles — `started=false` on the first,
`started=true` on the second — and returns the transcription of the full
accumulated buffer from the final cycle. -/
theorem listen_no_boundary_two_cycles (env : ListenEnv)
    (hseg1 : env.segment (env.transcribe (env.record_user 0 false) ++ " .") ≤ 1)
    (hseg2 : env.segment
      (env.transcribe (env.record_user 0 false ++ env.record_user 1 true) ++ " .") ≤ 1) :
    _listen env =
      (env.transcribe (env.record_user 0 false ++ env.record_user 1 true),
       [⟨false, env.record_user 0 false,
          env.transcribe (env.record_user 0 false)⟩,
        ⟨true, env.record_user 0 false ++ env.record_user 1 true,
          env.transcribe (env.record_user 0 false ++ env.record_user 1 true)⟩]) := by
  have h1 : ¬ env.segment (env.transcribe (env.record_user 0 false) ++ " .") > 1 :=
    Nat.not_lt.mpr hseg1
  have h2 : ¬ env.segment
      (env.transcribe (env.record_user 0 false ++ env.record_user 1 true) ++ " .") > 1 :=
    Nat.not_lt.mpr hseg2
  simp only [_listen, listenLoop, List.nil_append, Bool.not_true, Bool.not_false,
    if_neg h1, if_neg h2]
  simp

/-- Concrete collaborators for the witness of C1: the segmenter always
reports exactly one span, so no sentence boundary is ever detected. -/
def envOneSpan : ListenEnv where
  record_user := fun _ _ => [1]
  transcribe := fun a => "t" ++ toString a.length
  segment := fun _ => 1

/-- Witness for C1 at `envOneSpan`. -/
theorem listen_no_boundary_two_cycles_witness :
    envOneSpan.segment
      (envOneSpan.transcribe (envOneSpan.record_user 0 false) ++ " .") ≤ 1 ∧
    envOneSpan.segment
      (envOneSpan.transcribe
        (envOneSpan.record_user 0 false ++ envOneSpan.record_user 1 true) ++ " .") ≤ 1 ∧
    _listen envOneSpan =
      (envOneSpan.transcribe (envOneSpan.record_user 0 false ++ envOneSpan.record_user 1 true),
       [⟨false, envOneSpan.record_user 0 false,
          envOneSpan.transcribe (envOneSpan.record_user 0 false)⟩,
        ⟨true, envOneSpan.record_user 0 false ++ envOneSpan.record_user 1 true,
          envOneSpan.transcribe
            (envOneSpan.record_user 0 false ++ envOneSpan.record_user 1 true)⟩]) :=
  ⟨Nat.le_refl 1, Nat.le_refl 1,
   listen_no_boundary_two_cycles envOneSpan (Nat.le_refl 1) (Nat.le_refl 1)⟩

/-- C2: if the very first transcription, with `" ."` appended, segments
into more than one span, `_listen` performs exactly one cycle and returns
that first transcription. -/
theorem listen_first_boundary_one_cycle (env : ListenEnv)
    (hseg : env.segment (env.transcribe (env.record_user 0 false) ++ " .") > 1) :
    _listen env =
      (env.transcribe (env.record_user 0 false),
       [⟨false, env.record_user 0 false,
          env.transcribe (env.record_user 0 false)⟩]) := by
  simp only [_listen, listenLoop, List.nil_append, Bool.not_true, if_pos hseg]

/-- Concrete collaborators for the witness of C2: the segmenter always
reports two spans, so the first attempt already shows a boundary. -/
def envTwoSpans : ListenEnv where
  record_user := fun _ _ => [1]
  transcribe := fun a => "t" ++ toString a.length
  segment := fun _ => 2

/-- Witness for C2 at `envTwoSpans`. -/
theorem listen_first_boundary_one_cycle_witness :
    envTwoSpans.segment
      (envTwoSpans.transcribe (envTwoSpans.record_user 0 false) ++ " .") > 1 ∧
    _listen envTwoSpans =
      (envTwoSpans.transcribe (envTwoSpans.record_user 0 false),
       [⟨false, envTwoSpans.record_user 0 false,
          envTwoSpans.transcribe (envTwoSpans.record_user 0 false)⟩]) :=
  ⟨Nat.lt_succ_self 1, listen_first_boundary_one_cycle envTwoSpans (Nat.lt_succ_self 1)⟩

/-! ## Streaming listening (`BaseEar._listen_stream`, base.py lines 142-170,
and `BaseEar._sim_transcribe_stream`, base.py lines 68-91)

Queues are modelled by the ordered list of items their producer pushes:
a `TranscriptionQueue` is a `List (Option String)` where `none` is the
`None` end-of-stream sentinel, and an `AudioQueue` is a
`List (Option AudioChunk)`.  The orchestrator's blocking reads are the
successive elements of the list. -/

/-- An audio chunk crossing the audio→transcription boundary: the int16
PCM samples of the chunk (the Python code passes their little-endian byte
serialization `tobytes()`, an injective encoding of this list). -/
abbrev AudioChunk : Type := List ℤ

/-- Operations the streaming orchestrator performs, in order, during one
`_listen_stream` call: starting the two worker threads, the blocking
reads from the transcription queue, and the two joins. -/
inductive StreamOp where
  | startAudioThread
  | startTranscriptionThread
  | getFragment (item : Option String)
  | joinAudioThread
  | joinTranscriptionThread
deriving DecidableEq

/-- The `while True: _ = transcription_queue.get(); if _ is None: break;
text += _ + " "` drain loop, which appears verbatim both in
`_listen_stream` (lines 162-167) and in `_sim_transcribe_stream`
(lines 85-90).  Returns the accumulated text and the trace of reads.
(When the queue list is exhausted without a sentinel the real loop blocks
forever; that case returns the accumulator and is outside every theorem
below, which all supply a sentinel.) -/
def drainTranscriptionQueue : List (Option String) → String → String × List StreamOp
  | [], acc => (acc, [])
  | none :: _, acc => (acc, [.getFragment none])
  | some s :: rest, acc =>
    let r := drainTranscriptionQueue rest (acc ++ s ++ " ")
    (r.1, .getFragment (some s) :: r.2)

/-- `BaseEar._listen_stream` (base.py lines 142-170), given the contents
`tq` that the transcription worker pushes onto the transcription queue.
Returns the transcript together with the ordered trace of thread and
queue operations the orchestrator performs: start both workers, drain the
transcription queue until the sentinel, join both workers, return. -/
def _listen_stream (tq : List (Option String)) : String × List StreamOp :=
  let r := drainTranscriptionQueue tq ""
  (r.1, [.startAudioThread, .startTranscriptionThread] ++ r.2 ++
        [.joinAudioThread, .joinTranscriptionThread])

/-- Folding string append from a seed `s` equals `s` followed by the fold
from the empty string. -/
theorem string_foldl_append (l : List String) (s : String) :
    l.foldl (· ++ ·) s = s ++ l.foldl (· ++ ·) "" := by
  induction l generalizing s with
  | nil => simp
  | cons a t ih =>
    simp only [List.foldl_cons]
    rw [ih (s ++ a), ih ("" ++ a)]
    simp [String.append_assoc]

/-- `String.join` peels off the head of the list. -/
theorem string_join_cons (a : String) (l : List String) :
    String.join (a :: l) = a ++ String.join l := by
  simp only [String.join, List.foldl_cons]
  rw [string_foldl_append]
  simp

/-- Text drained from `frags` then a sentinel then anything: helper for
C3 and C4.  Each fragment is appended followed by a separating space. -/
theorem drainTranscriptionQueue_spec (frags : List String) (rest : List (Option String))
    (acc : String) :
    (drainTranscriptionQueue (frags.map some ++ none :: rest) acc).1 =
      acc ++ String.join (frags.map (fun f => f ++ " ")) := by
  induction frags generalizing acc with
  | nil => simp [drainTranscriptionQueue, String.join]
  | cons f fs ih =>
    simp only [List.map_cons, List.cons_append, drainTranscriptionQueue, List.append_eq]
    rw [ih, string_join_cons]
    simp [String.append_assoc]

/-- C3: for every finite sequence of fragments pushed before the
sentinel (and anything after it), `_listen_stream` returns the
concatenation, in FIFO order, of exactly the fragments preceding the
sentinel, each followed by a separating space (the space-joined
concatenation of §4.2: `text += _ + " "`). -/
theorem listen_stream_returns_prefix_join (frags : List String)
    (rest : List (Option String)) :
    (_listen_stream (frags.map some ++ none :: rest)).1 =
      String.join (frags.map (fun f => f ++ " ")) := by
  simp only [_listen_stream]
  rw [drainTranscriptionQueue_spec]
  simp

/-- Every operation the drain loop performs is a queue read. -/
theorem drainTranscriptionQueue_ops (q : List (Option String)) (acc : String) :
    ∀ op ∈ (drainTranscriptionQueue q acc).2, ∃ f, op = StreamOp.getFragment f := by
  induction q generalizing acc with
  | nil => simp [drainTranscriptionQueue]
  | cons x t ih =>
    cases x with
    | none => simp [drainTranscriptionQueue]
    | some s =>
      intro op hop
      simp only [drainTranscriptionQueue, List.mem_cons] at hop
      rcases hop with h | h
      · exact ⟨some s, h⟩
      · exact ih (acc ++ s ++ " ") op h

/-- C10: in every `_listen_stream` call, the operation trace is: start
both workers, perform only queue reads, then join the capture worker and
join the transcription worker as the final two operations before the
call returns — so both workers are fully waited on (completed) before
return and no worker outlives the call. -/
theorem listen_stream_joins_workers_before_return (tq : List (Option String)) :
    ∃ mid, (_listen_stream tq).2 =
      [StreamOp.startAudioThread, StreamOp.startTranscriptionThread] ++ mid ++
        [StreamOp.joinAudioThread, StreamOp.joinTranscriptionThread] ∧
      ∀ op ∈ mid, ∃ f, op = StreamOp.getFragment f :=
  ⟨(drainTranscriptionQueue tq "").2, rfl, drainTranscriptionQueue_ops tq ""⟩

/-! ## Stream simulation (`BaseEar._sim_transcribe_stream`, base.py 68-91) -/

/-- Truncation toward zero, the C-style float→integer conversion
performed by numpy `astype`. -/
def ratTrunc (x : ℚ) : ℤ := if 0 ≤ x then ⌊x⌋ else ⌈x⌉

/-- One sample of `(input_audio * (1 << 15)).astype(np.int16)`:
multiply by `2^15 = 32768`, truncate toward zero, wrap into the int16
range `[-32768, 32767]`. -/
def int16Sample (x : ℚ) : ℤ := (ratTrunc (x * 32768) + 32768) % 65536 - 32768

/-- The single chunk `(input_audio * (1 << 15)).astype(np.int16).tobytes()`
pushed by `_sim_transcribe_stream` (modulo the injective byte
serialization). -/
def toInt16Pcm (a : Audio) : AudioChunk := a.map int16Sample

/-- The streaming-transcriber collaborator `transcribe_stream`, modelled
denotationally: from the full contents of the audio queue (items are
pushed before the worker is started and the worker is joined before the
result queue is read, so the worker sees the whole list) to the full
contents of the transcription queue it produces. -/
abbrev StreamTranscriber : Type := List (Option AudioChunk) → List (Option String)

/-- `BaseEar._sim_transcribe_stream` (base.py lines 68-91): build a fresh
audio queue holding exactly one PCM chunk followed by one sentinel, run
the streaming transcriber to completion (`start` immediately followed by
`join` — the sequential application of `ts` here), then drain the
transcription queue with the same loop as `_listen_stream`. -/
def _sim_transcribe_stream (ts : StreamTranscriber) (input_audio : Audio) : String :=
  (drainTranscriptionQueue (ts [some (toInt16Pcm input_audio), none]) "").1

/-- C4: `_sim_transcribe_stream` feeds the transcriber exactly
`[one PCM chunk, sentinel]` and returns the concatenation of the
fragments the transcriber emitted before its own sentinel, each followed
by a separating space; fragments after the sentinel and the sentinel
itself are ignored. -/
theorem sim_transcribe_stream_spec (ts : StreamTranscriber) (input_audio : Audio)
    (frags : List String) (rest : List (Option String))
    (h : ts [some (toInt16Pcm input_audio), none] = frags.map some ++ none :: rest) :
    _sim_transcribe_stream ts input_audio =
      String.join (frags.map (fun f => f ++ " ")) := by
  simp only [_sim_transcribe_stream, h]
  rw [drainTranscriptionQueue_spec]
  simp

/-- A concrete streaming transcriber for the witness of C4: it emits one
fragment and its sentinel for any input queue. -/
def tsHello : StreamTranscriber := fun _ => [some "hello", none]

/-- Witness for C4 at `tsHello` on a half-amplitude one-sample buffer. -/
theorem sim_transcribe_stream_spec_witness :
    tsHello [some (toInt16Pcm [1/2]), none] = ["hello"].map some ++ none :: [] ∧
    _sim_transcribe_stream tsHello [1/2] =
      String.join (["hello"].map (fun f => f ++ " ")) :=
  ⟨rfl, sim_transcribe_stream_spec tsHello [1/2] ["hello"] [] rfl⟩

/-! ## Interruption detection (`BaseEar.interrupt_listen`, base.py 182-218) -/

/-- A Python value as returned by `interrupt_listen`: the method can
return `False` (listening disabled), a string (empty when nothing was
captured, otherwise the normalized interruption text), or fall off the
end of the `while` loop, which in Python returns `None`. -/
inductive PyVal where
  | pybool (b : Bool)
  | pystr (s : String)
  | pynone
deriving DecidableEq

/-- Python truthiness of the values `interrupt_listen` can return:
`bool(False) = bool("") = bool(None) = False`, a non-empty string is
truthy. -/
def PyVal.truthy : PyVal → Bool
  | .pybool b => b
  | .pystr s => !s.isEmpty
  | .pynone => false

/-- A character kept by `re.sub(r"[^\w\s]", "", text)`: word characters
(alphanumeric or underscore) and whitespace (ASCII fragment of the
Python character classes). -/
def isWordOrSpace (c : Char) : Bool := c.isAlphanum || c == '_' || c.isWhitespace

/-- Python `str.strip()`: drop leading and trailing whitespace. -/
def pyStrip (l : List Char) : List Char :=
  ((l.dropWhile Char.isWhitespace).reverse.dropWhile Char.isWhitespace).reverse

/-- The normalization pipeline of `interrupt_listen` (base.py 211-213):
`re.sub(r"[^\w\s]", "", text)`, then `.lower()`, then `.strip()`. -/
def pyNormalize (s : String) : String :=
  String.mk (pyStrip ((s.data.filter isWordOrSpace).map Char.toLower))

/-- External collaborators of `interrupt_listen`: `record_interruption`
returns the `k`-th captured window (`None` when VAD finds no voice), and
the two transcription paths. -/
structure InterruptEnv where
  record_interruption : Nat → Option Audio
  transcribe : Audio → String
  sim_transcribe : Audio → String

/-- The `BaseEar` configuration fields `interrupt_listen` reads. -/
structure EarCfg where
  stream : Bool
  listen_interruptions : Bool
  not_interrupt_words : List String

/-- `duration = len(interruption_audio) / 16_000` (base.py line 201). -/
def duration (a : Audio) : ℚ := (a.length : ℚ) / 16000

/-- The transcription of one interruption window:
`self._sim_transcribe_stream(audio)` in streaming mode, else
`self.transcribe(audio)` (base.py 205-208). -/
def windowText (env : InterruptEnv) (cfg : EarCfg) (a : Audio) : String :=
  if cfg.stream then env.sim_transcribe a else env.transcribe a

/-- The `while record_seconds > 0` loop of `interrupt_listen`
(base.py 193-218), with the capture-call index `k` made explicit and a
fuel parameter (`none` = fuel exhausted; the Python loop can genuinely
diverge when zero-length windows keep matching filler words).  The
result carries the returned `PyVal` together with the number of
`record_interruption` calls and of transcriptions performed from this
iteration on.  Falling out of the loop returns Python `None`. -/
def interruptLoop (env : InterruptEnv) (cfg : EarCfg) :
    Nat → ℚ → Nat → Option (PyVal × Nat × Nat)
  | _, _, 0 => none
  | k, record_seconds, Nat.succ fuel =>
    if 0 < record_seconds then
      match env.record_interruption k with
      | none => some (.pystr "", 1, 0)
      | some audio =>
        let text := windowText env cfg audio
        let norm := pyNormalize text
        if norm ∈ cfg.not_interrupt_words then
          match interruptLoop env cfg (k + 1) (record_seconds - duration audio) fuel with
          | none => none
          | some (v, c, t) => some (v, c + 1, t + 1)
        else some (.pystr norm, 1, 1)
    else some (.pynone, 0, 0)

/-- `BaseEar.interrupt_listen` (base.py 182-218): `False` immediately if
`listen_interruptions` is disabled, otherwise the loop (default
`record_seconds=100` at the Python call sites). -/
def interrupt_listen (env : InterruptEnv) (cfg : EarCfg) (record_seconds : ℚ)
    (fuel : Nat) : Option (PyVal × Nat × Nat) :=
  if cfg.listen_interruptions then interruptLoop env cfg 0 record_seconds fuel
  else some (.pybool false, 0, 0)

/-- The default `not_interrupt_words` of `BaseEar.__init__`
(base.py 38-44). -/
def defaultNotInterruptWords : List String := ["you", "yes", "yeah", "hmm"]

/-- C5: an iteration whose window normalizes to a not-interrupt word does
not return that text; the remaining budget drops by exactly
`len(audio)/16000` and the loop continues (re-entering the `> 0` budget
check) with the next capture. -/
theorem interrupt_listen_ignorable_word_continues (env : InterruptEnv) (cfg : EarCfg)
    (k : Nat) (T : ℚ) (fuel : Nat) (audio : Audio)
    (hT : 0 < T) (hcap : env.record_interruption k = some audio)
    (hword : pyNormalize (windowText env cfg audio) ∈ cfg.not_interrupt_words) :
    interruptLoop env cfg k T (fuel + 1) =
      (interruptLoop env cfg (k + 1) (T - duration audio) fuel).map
        (fun r => (r.1, r.2.1 + 1, r.2.2 + 1)) := by
  simp only [interruptLoop, if_pos hT, hcap, if_pos hword]
  cases h : interruptLoop env cfg (k + 1) (T - duration audio) fuel with
  | none => rfl
  | some r => rcases r with ⟨v, c, t⟩; rfl

/-- The default `BaseEar` configuration: batch mode, interruption
listening enabled, default filler words. -/
def cfgDefault : EarCfg where
  stream := false
  listen_interruptions := true
  not_interrupt_words := defaultNotInterruptWords

/-- Collaborators for the witness of C5: every window transcribes to
`"Yes."`, which normalizes to the filler word `"yes"`. -/
def envYes : InterruptEnv where
  record_interruption := fun _ => some [1]
  transcribe := fun _ => "Yes."
  sim_transcribe := fun _ => "Yes."

/-- Witness for C5 at `envYes`. -/
theorem interrupt_listen_ignorable_word_continues_witness :
    (0 : ℚ) < 100 ∧ envYes.record_interruption 0 = some [1] ∧
    pyNormalize (windowText envYes cfgDefault [1]) ∈ cfgDefault.not_interrupt_words ∧
    interruptLoop envYes cfgDefault 0 100 (1 + 1) =
      (interruptLoop envYes cfgDefault (0 + 1) (100 - duration [1]) 1).map
        (fun r => (r.1, r.2.1 + 1, r.2.2 + 1)) :=
  ⟨by norm_num, rfl, by decide,
   interrupt_listen_ignorable_word_continues envYes cfgDefault 0 100 1 [1]
     (by norm_num) rfl (by decide)⟩

/-- Collaborators refuting C6 as stated: the window transcribes to
`"!!!"`, whose normalization is the empty string, which is not among the
default not-interrupt words. -/
def envBang : InterruptEnv where
  record_interruption := fun _ => some [1]
  transcribe := fun _ => "!!!"
  sim_transcribe := fun _ => "!!!"

/-- Counterexample to C6: at `envBang` the genuine-interruption branch is
taken (the normalized text is not a not-interrupt word), yet the value
returned is the empty string — falsy and empty, not a truthy non-empty
string. -/
theorem interrupt_listen_genuine_branch_counterexample :
    pyNormalize (windowText envBang cfgDefault [1]) ∉ cfgDefault.not_interrupt_words ∧
    interrupt_listen envBang cfgDefault 100 5 = some (.pystr "", 1, 1) ∧
    PyVal.truthy (.pystr "") = false := by
  refine ⟨by decide, by decide, rfl⟩

/-- C6 as amended: on the genuine-interruption branch the call returns
the normalized transcription as a string; that value is truthy and
non-empty exactly when the normalization is non-empty (a transcription
normalizing to the empty string yields the empty, falsy string). -/
theorem interrupt_listen_genuine_returns_normalized (env : InterruptEnv) (cfg : EarCfg)
    (k : Nat) (T : ℚ) (fuel : Nat) (audio : Audio)
    (hT : 0 < T) (hcap : env.record_interruption k = some audio)
    (hword : pyNormalize (windowText env cfg audio) ∉ cfg.not_interrupt_words) :
    interruptLoop env cfg k T (fuel + 1) =
      some (.pystr (pyNormalize (windowText env cfg audio)), 1, 1) ∧
    (PyVal.truthy (.pystr (pyNormalize (windowText env cfg audio))) = true ↔
      pyNormalize (windowText env cfg audio) ≠ "") := by
  constructor
  · simp only [interruptLoop, if_pos hT, hcap, if_neg hword]
  · simp only [PyVal.truthy, Bool.not_eq_true']
    simp [← String.isEmpty_iff]

/-- Collaborators for the witness of the amended C6: the window
transcribes to `"Stop now!"`, normalizing to `"stop now"`. -/
def envStop : InterruptEnv where
  record_interruption := fun _ => some [1]
  transcribe := fun _ => "Stop now!"
  sim_transcribe := fun _ => "Stop now!"

/-- Witness for the amended C6 at `envStop`. -/
theorem interrupt_listen_genuine_returns_normalized_witness :
    (0 : ℚ) < 100 ∧ envStop.record_interruption 0 = some [1] ∧
    pyNormalize (windowText envStop cfgDefault [1]) ∉ cfgDefault.not_interrupt_words ∧
    (interruptLoop envStop cfgDefault 0 100 (0 + 1) =
      some (.pystr (pyNormalize (windowText envStop cfgDefault [1])), 1, 1) ∧
     (PyVal.truthy (.pystr (pyNormalize (windowText envStop cfgDefault [1]))) = true ↔
       pyNormalize (windowText envStop cfgDefault [1]) ≠ "")) :=
  ⟨by norm_num, rfl, by decide,
   interrupt_listen_genuine_returns_normalized envStop cfgDefault 0 100 0 [1]
     (by norm_num) rfl (by decide)⟩

/-- C7: the two early-exit paths of `interrupt_listen` both yield falsy
"no interruption" values: with listening disabled it returns `False`
having made zero capture calls, and with a first capture reporting
nothing it returns `""` after exactly one capture call and zero
transcriptions, without looping further. -/
theorem interrupt_listen_early_exit_paths (env : InterruptEnv) (cfg : EarCfg)
    (T : ℚ) (fuel : Nat) :
    (cfg.listen_interruptions = false →
      interrupt_listen env cfg T (fuel + 1) = some (.pybool false, 0, 0) ∧
      PyVal.truthy (.pybool false) = false) ∧
    (cfg.listen_interruptions = true → 0 < T → env.record_interruption 0 = none →
      interrupt_listen env cfg T (fuel + 1) = some (.pystr "", 1, 0) ∧
      PyVal.truthy (.pystr "") = false) := by
  constructor
  · intro h
    exact ⟨by simp [interrupt_listen, h], rfl⟩
  · intro h hT hcap
    refine ⟨?_, rfl⟩
    simp [interrupt_listen, h, interruptLoop, if_pos hT, hcap]

/-- `cfgDefault` with interruption listening disabled. -/
def cfgNoInterrupt : EarCfg where
  stream := false
  listen_interruptions := false
  not_interrupt_words := defaultNotInterruptWords

/-- Collaborators whose interruption capture finds no voice. -/
def envNoVoice : InterruptEnv where
  record_interruption := fun _ => none
  transcribe := fun _ => "x"
  sim_transcribe := fun _ => "x"

/-- Witness for C7 at `cfgNoInterrupt` and `envNoVoice`. -/
theorem interrupt_listen_early_exit_paths_witness :
    (cfgNoInterrupt.listen_interruptions = false ∧
      interrupt_listen envNoVoice cfgNoInterrupt 100 (0 + 1) =
        some (.pybool false, 0, 0)) ∧
    (cfgDefault.listen_interruptions = true ∧ (0 : ℚ) < 100 ∧
      envNoVoice.record_interruption 0 = none ∧
      interrupt_listen envNoVoice cfgDefault 100 (0 + 1) = some (.pystr "", 1, 0)) :=
  ⟨⟨rfl, ((interrupt_listen_early_exit_paths envNoVoice cfgNoInterrupt 100 0).1 rfl).1⟩,
   ⟨rfl, by norm_num, rfl,
    ((interrupt_listen_early_exit_paths envNoVoice cfgDefault 100 0).2 rfl
      (by norm_num) rfl).1⟩⟩

/-- C8: when every captured window normalizes to a not-interrupt word,
any terminating run of the loop ends by budget exhaustion and returns
Python `None` (reached exactly when the budget is `≤ 0` at the loop
head), a falsy value distinct from both the `False` of the disabled path
and the `""` of the nothing-captured path. -/
theorem interrupt_listen_exhausted_budget_returns_none (env : InterruptEnv) (cfg : EarCfg)
    (hall : ∀ j, ∃ a, env.record_interruption j = some a ∧
      pyNormalize (windowText env cfg a) ∈ cfg.not_interrupt_words) :
    (∀ fuel k T, interruptLoop env cfg k T fuel = none ∨
      ∃ c t, interruptLoop env cfg k T fuel = some (.pynone, c, t)) ∧
    (∀ fuel k (T : ℚ), T ≤ 0 →
      interruptLoop env cfg k T (fuel + 1) = some (.pynone, 0, 0)) ∧
    PyVal.truthy .pynone = false ∧
    PyVal.pynone ≠ .pybool false ∧ PyVal.pynone ≠ .pystr "" := by
  refine ⟨?_, ?_, rfl, by simp, by simp⟩
  · intro fuel
    induction fuel with
    | zero => intro k T; left; rfl
    | succ n ih =>
      intro k T
      by_cases hT : 0 < T
      · obtain ⟨a, hcap, hword⟩ := hall k
        rcases ih (k + 1) (T - duration a) with h | ⟨c, t, h⟩
        · left
          simp [interruptLoop, if_pos hT, hcap, if_pos hword, h]
        · right
          exact ⟨c + 1, t + 1, by simp [interruptLoop, if_pos hT, hcap, if_pos hword, h]⟩
      · right
        exact ⟨0, 0, by simp [interruptLoop, if_neg hT]⟩
  · intro fuel k T hT
    simp [interruptLoop, not_lt.mpr hT]

/-- Collaborators for the witness of C8: every window transcribes to the
filler word `"hmm"`. -/
def envHmm : InterruptEnv where
  record_interruption := fun _ => some [1]
  transcribe := fun _ => "hmm"
  sim_transcribe := fun _ => "hmm"

/-- Witness for C8 at `envHmm`. -/
theorem interrupt_listen_exhausted_budget_returns_none_witness :
    (∀ j, ∃ a, envHmm.record_interruption j = some a ∧
      pyNormalize (windowText envHmm cfgDefault a) ∈ cfgDefault.not_interrupt_words) ∧
    (interruptLoop envHmm cfgDefault 0 1 3 = none ∨
      ∃ c t, interruptLoop envHmm cfgDefault 0 1 3 = some (.pynone, c, t)) :=
  ⟨fun _ => ⟨[1], rfl, by decide⟩,
   (interrupt_listen_exhausted_budget_returns_none envHmm cfgDefault
      (fun _ => ⟨[1], rfl, by decide⟩)).1 3 0 1⟩

/-! ## Unimplemented capabilities and exception propagation (C9)

Python exceptions are modelled with `Except`: a collaborator either
returns a value (`.ok`) or raises (`.error`).  The base-class methods
`BaseEar.transcribe` and `BaseEar.transcribe_stream` (base.py 53-66)
raise `NotImplementedError` unconditionally; the orchestration loops
contain no `try/except`, so a collaborator's error is the call's
result. -/

/-- A raised Python exception. -/
inductive PyErr where
  | notImplemented
  | other (msg : String)
deriving DecidableEq

namespace BaseEar

/-- `BaseEar.transcribe` (base.py 53-59):
`raise NotImplementedError("This method should be implemented by the
subclass")` for every input. -/
def transcribe (_input_audio : Audio) : Except PyErr String :=
  .error .notImplemented

/-- `BaseEar.transcribe_stream` (base.py 61-66): raises
`NotImplementedError` for every audio queue, producing no transcription
queue contents. -/
def transcribe_stream (_audio_queue : List (Option AudioChunk)) :
    Except PyErr (List (Option String)) :=
  .error .notImplemented

end BaseEar

/-- `_listen` collaborators with a fallible transcriber, for the
exception-propagation part of C9. -/
structure ListenEnvE where
  record_user : Nat → Bool → Audio
  transcribe : Audio → Except PyErr String
  segment : String → Nat

/-- The `_listen` loop over a fallible transcriber: identical control
flow to `listenLoop` (base.py 112-139), with a raise at the
`self.transcribe(audio)` call ending the whole call — there is no
`try/except` in `_listen`. -/
def listenLoopE (env : ListenEnvE) :
    Nat → Audio → Bool → Nat → String → Except PyErr String
  | _, _, _, 0, lastText => .ok lastText
  | k, audio, first, Nat.succ m, _ =>
    let newAudio := env.record_user k (!first)
    let audio2 := audio ++ newAudio
    match env.transcribe audio2 with
    | .error e => .error e
    | .ok text =>
      if env.segment (text ++ " .") > 1 then .ok text
      else listenLoopE env (k + 1) audio2 false m text

/-- `interrupt_listen` collaborators with a fallible transcriber. -/
structure InterruptEnvE where
  record_interruption : Nat → Option Audio
  transcribe : Audio → Except PyErr String

/-- The `interrupt_listen` loop over a fallible transcriber: identical
control flow to `interruptLoop` (base.py 193-218), with a raise at the
transcription call ending the whole call — there is no `try/except` in
`interrupt_listen`. -/
def interruptLoopE (env : InterruptEnvE) (words : List String) :
    Nat → ℚ → Nat → Option (Except PyErr PyVal)
  | _, _, 0 => none
  | k, T, Nat.succ fuel =>
    if 0 < T then
      match env.record_interruption k with
      | none => some (.ok (.pystr ""))
      | some audio =>
        match env.transcribe audio with
        | .error e => some (.error e)
        | .ok text =>
          let norm := pyNormalize text
          if norm ∈ words then interruptLoopE env words (k + 1) (T - duration audio) fuel
          else some (.ok (.pystr norm))
    else some (.ok .pynone)

/-- C9: the base-class `transcribe` and `transcribe_stream` fail with
`NotImplementedError` on every input and never return text, and the
orchestration loops propagate a collaborator's exception unchanged as
the call's outcome — they neither catch nor suppress it. -/
theorem unimplemented_fails_and_errors_propagate :
    (∀ a : Audio, BaseEar.transcribe a = .error .notImplemented ∧
      ∀ s : String, BaseEar.transcribe a ≠ .ok s) ∧
    (∀ q : List (Option AudioChunk),
      BaseEar.transcribe_stream q = .error .notImplemented) ∧
    (∀ (env : ListenEnvE) (k : Nat) (audio : Audio) (first : Bool) (m : Nat)
      (lastText : String) (e : PyErr),
      env.transcribe (audio ++ env.record_user k (!first)) = .error e →
      listenLoopE env k audio first (m + 1) lastText = .error e) ∧
    (∀ (env : InterruptEnvE) (words : List String) (k : Nat) (T : ℚ) (fuel : Nat)
      (a : Audio) (e : PyErr),
      0 < T → env.record_interruption k = some a → env.transcribe a = .error e →
      interruptLoopE env words k T (fuel + 1) = some (.error e)) := by
  refine ⟨fun a => ⟨rfl, fun s h => by cases h⟩, fun q => rfl, ?_, ?_⟩
  · intro env k audio first m lastText e h
    simp only [listenLoopE, h]
  · intro env words k T fuel a e hT hcap herr
    simp only [interruptLoopE, if_pos hT, hcap, herr]

/-- `_listen` collaborators whose transcriber is the unimplemented base
method. -/
def envErrListen : ListenEnvE where
  record_user := fun _ _ => [1]
  transcribe := BaseEar.transcribe
  segment := fun _ => 1

/-- `interrupt_listen` collaborators whose transcriber is the
unimplemented base method. -/
def envErrInterrupt : InterruptEnvE where
  record_interruption := fun _ => some [1]
  transcribe := BaseEar.transcribe

/-- Witness for C9 at the base-class transcriber. -/
theorem unimplemented_fails_and_errors_propagate_witness :
    BaseEar.transcribe [1] = .error .notImplemented ∧
    BaseEar.transcribe_stream [some [1], none] = .error .notImplemented ∧
    (envErrListen.transcribe ([] ++ envErrListen.record_user 0 (!true)) =
        .error .notImplemented ∧
      listenLoopE envErrListen 0 [] true (1 + 1) "" = .error .notImplemented) ∧
    ((0 : ℚ) < 100 ∧ envErrInterrupt.record_interruption 0 = some [1] ∧
      envErrInterrupt.transcribe [1] = .error .notImplemented ∧
      interruptLoopE envErrInterrupt defaultNotInterruptWords 0 100 (0 + 1) =
        some (.error .notImplemented)) :=
  ⟨(unimplemented_fails_and_errors_propagate.1 [1]).1,
   unimplemented_fails_and_errors_propagate.2.1 [some [1], none],
   ⟨rfl, unimplemented_fails_and_errors_propagate.2.2.1 envErrListen 0 [] true 1 ""
      .notImplemented rfl⟩,
   ⟨by norm_num, rfl, rfl,
    unimplemented_fails_and_errors_propagate.2.2.2 envErrInterrupt
      defaultNotInterruptWords 0 100 0 [1] .notImplemented (by norm_num) rfl rfl⟩⟩

end OpenVoiceChat
